import Mathlib

/-!
Verification development for the luxury-travel-bot repository.

The definitions below are a shallow embedding of the core pipeline of
`src/Luxury_Travel_Bot.py` (parameter extraction / normalization, intent
routing inside `chat`, getaway prompt construction, PDF story assembly)
together with the destination resolver
`select_destination_with_affiliate_links` of `src/Luxury_Travel_Bot_old.py`.

Python dictionaries holding the extracted trip parameters are modelled by a
record of `Option PyVal` fields (`none` = key absent, `some .none` = key
present with value `None`), so that Python's `dict.get`/`dict.setdefault`
semantics (absent vs. present-but-falsy) are represented exactly.
The two outbound model calls and the JSON library are external
collaborators: they enter the embedding as explicit oracle arguments
(`ModelOutcome`, a `loads` function), while everything the repository's own
code computes is embedded as executable Lean functions.
-/

namespace TravelBot

/-- A Python value as it can occur in the extracted-parameter dictionary:
`None`, a string, an integer, a boolean, or a list. -/
inductive PyVal where
  | null : PyVal
  | str (s : String) : PyVal
  | num (n : Int) : PyVal
  | boolean (b : Bool) : PyVal
  | list (l : List PyVal) : PyVal
deriving Repr

/-- Python truthiness of a `PyVal` (`bool(v)`):
`None`, `""`, `0`, `False` and `[]` are falsy. -/
def truthy : PyVal → Bool
  | .null => false
  | .str s => !(s == "")
  | .num n => !(n == 0)
  | .boolean b => b
  | .list l => !l.isEmpty

/-- The nine-field parameter dictionary produced by `extract_parameters`.
A field of value `none` means the key is absent from the dict;
`some PyVal.null` means the key is present and bound to Python `None`. -/
structure Params where
  destination : Option PyVal := none
  number_of_days : Option PyVal := none
  budget : Option PyVal := none
  preferred_activities : Option PyVal := none
  family_size : Option PyVal := none
  ages : Option PyVal := none
  travel_dates : Option PyVal := none
  climate_preferences : Option PyVal := none
  geography_scenery : Option PyVal := none

/-! ### Substring containment (Python's `needle in haystack`) -/

/-- `listStartsWith pre l` : `pre` is a leading segment of `l`. -/
def listStartsWith : List Char → List Char → Bool
  | [], _ => true
  | _ :: _, [] => false
  | a :: as, b :: bs => a == b && listStartsWith as bs

/-- `occursIn needle hay` : `needle` occurs as a contiguous segment of `hay`. -/
def occursIn (needle : List Char) : List Char → Bool
  | [] => needle.isEmpty
  | c :: rest => listStartsWith needle (c :: rest) || occursIn needle rest

/-- Python's substring test `needle in hay` on strings. -/
def substr (needle hay : String) : Bool :=
  occursIn needle.data hay.data

/-- Is `c` one of the whitespace characters stripped by Python's `str.strip`? -/
def isPySpace (c : Char) : Bool :=
  c == ' ' || c == '\t' || c == '\n' || c == '\r' || c == '\x0b' || c == '\x0c'

/-- Python's `s.strip()`: remove leading and trailing whitespace. -/
def pyStrip (s : String) : String :=
  String.mk (((s.data.dropWhile isPySpace).reverse.dropWhile isPySpace).reverse)

/-- Python's `s.startswith(pre)`. -/
def strStartsWith (pre s : String) : Bool :=
  listStartsWith pre.data s.data

/-- One step of Python's `s.split('\n')`: `acc` is the current segment,
reversed. -/
def pySplitNlAux : List Char → List Char → List String
  | acc, [] => [String.mk acc.reverse]
  | acc, c :: rest =>
    if c == '\n' then String.mk acc.reverse :: pySplitNlAux [] rest
    else pySplitNlAux (c :: acc) rest

/-- Python's `s.split('\n')` (keeps empty segments, like Python). -/
def pySplitNl (s : String) : List String :=
  pySplitNlAux [] s.data

/-! ### `normalize_parameters`, `get_default_parameters` (Luxury_Travel_Bot.py 1005-1037) -/

/-- Wrapping a non-list value in a single-element list
(`if not isinstance(params["destination"], list): ... = [...]`). -/
def wrapList : PyVal → List PyVal
  | .list l => l
  | v => [v]

/-- `normalize_parameters`: wrap a truthy non-list destination into a list and
drop falsy entries; replace an absent/falsy/emptied destination by
`["Paris"]`; `setdefault` the three scalar fields (the default is installed
only when the key is absent — a present falsy value is kept).
The source's `len(params["destination"]) == 0` test is subsumed by
truthiness, because a Python list is falsy exactly when it is empty. -/
def normalize_parameters (p : Params) : Params :=
  let d1 : Option PyVal :=
    match p.destination with
    | some v => if truthy v then some (.list ((wrapList v).filter truthy)) else some v
    | none => none
  let d2 : Option PyVal :=
    match d1 with
    | some v => if truthy v then some v else some (.list [.str "Paris"])
    | none => some (.list [.str "Paris"])
  { p with
    destination := d2
    number_of_days := some (p.number_of_days.getD (.num 7))
    family_size := some (p.family_size.getD (.num 2))
    budget := some (p.budget.getD (.str "$5000")) }

/-- `get_default_parameters`. -/
def get_default_parameters : Params :=
  { destination := some (.list [.str "Paris"])
    number_of_days := some (.num 7)
    budget := some (.str "$5000")
    preferred_activities := some .null
    family_size := some (.num 2)
    ages := some .null
    travel_dates := some .null
    climate_preferences := some .null
    geography_scenery := some .null }

/-! ### `extract_parameters` (Luxury_Travel_Bot.py 953-1002) -/

/-- Outcome of the blocking extraction call to the model backend
(an external collaborator): either an exception was raised, or a response
with a status code and a body content string came back. -/
inductive ModelOutcome where
  | fail : ModelOutcome
  | resp (status : Nat) (content : String) : ModelOutcome

/-- `re.search(r'\x7b.*\x7d', content, re.DOTALL)`: the leftmost match starts
at the first brace-open and the greedy `.*` runs to the last brace-close of
the whole string, so the match is the segment from the first brace-open to
the last brace-close (when the latter is not earlier). -/
def jsonSubstr (s : String) : Option String :=
  let cs := s.data
  match cs.findIdx? (· == '\x7b') with
  | none => none
  | some i =>
    match cs.reverse.findIdx? (· == '\x7d') with
    | none => none
    | some rj =>
      let j := cs.length - 1 - rj
      if i ≤ j then some (String.mk ((cs.drop i).take (j - i + 1))) else none

/-- `extract_parameters`, as a function of the model-call outcome and of the
JSON library (`loads : String → Option Params`, `none` = `json.loads`
raised or did not return a parameter dict; any such exception is caught by
the surrounding `try` and yields the default record). -/
def extract_parameters (outcome : ModelOutcome) (loads : String → Option Params) : Params :=
  match outcome with
  | .fail => get_default_parameters
  | .resp status content =>
    if status == 200 then
      match jsonSubstr content with
      | some js =>
        match loads js with
        | some p => normalize_parameters p
        | none => get_default_parameters
      | none => get_default_parameters
    else get_default_parameters

/-! ### Intent routing inside `chat` (Luxury_Travel_Bot.py 1393-1399) -/

/-- The coarse intent classification. -/
inductive Intent where
  | getaway : Intent
  | itinerary : Intent
  | unknown : Intent
deriving DecidableEq, Repr

/-- The getaway keyword set, checked first. -/
def getaway_keywords : List String := ["getaway", "vacation", "escape", "weekend"]

/-- The itinerary keyword set, checked second. -/
def itinerary_keywords : List String := ["itinerary", "plan", "trip", "schedule", "day-by-day"]

/-- `message.lower()`: character-wise lower-casing (the messages of every
claim are ASCII, where Python's `str.lower` and this agree). -/
def pyLower (s : String) : String :=
  String.mk (s.data.map Char.toLower)

/-- The keyword routing of `chat`: getaway keywords are tested first on the
lower-cased message, then itinerary keywords, else unknown. -/
def route (message : String) : Intent :=
  let m := pyLower message
  if getaway_keywords.any (fun w => substr w m) then .getaway
  else if itinerary_keywords.any (fun w => substr w m) then .itinerary
  else .unknown

end TravelBot

namespace TravelBot

/-! ### The affiliate catalog (Luxury_Travel_Bot.py 113-864) -/

/-- One affiliate catalog entry: place display name, hotel, booking link. -/
structure AffEntry where
  destination : String
  hotel : String
  link : String

/-- The `"getaways"` sub-dictionary of `affiliate_links`
(Luxury_Travel_Bot.py 113-852): region name -> affiliate entries,
in source (insertion) order. -/
def affiliate_links_getaways : List (String × List AffEntry) := [
  ("Africa", [
    ⟨"Félicité", "Six Senses Zil Pasyon", "https://luxuryescapes.sjv.io/dOOZ3j"⟩,
    ⟨"Mbombela", "Jock Safari Lodge", "https://luxuryescapes.sjv.io/mOObrM"⟩,
    ⟨"Serengeti", "Four Seasons Safari Lodge Serengeti", "https://luxuryescapes.sjv.io/Dyy11y"⟩,
    ⟨"Cape Town", "One&Only Cape Town", "https://luxuryescapes.sjv.io/e11BBg"⟩,
    ⟨"Maasai Mara", "Neptune Mara Rianta Luxury Camp", "https://luxuryescapes.sjv.io/XmmZZ5"⟩
  ]),
  ("Australia", [
    ⟨"The Trio at Rubus Residences", "Rubus Residences", "https://luxuryescapes.sjv.io/mOOr7M"⟩,
    ⟨"Luxico Victoria on Portsea", "Luxico Victoria", "https://luxuryescapes.sjv.io/raae7v"⟩,
    ⟨"Linnaeus Farm Berry", "Linnaeus Farm Berry", "https://luxuryescapes.sjv.io/xLLXWk"⟩,
    ⟨"Southern Ocean Lodge", "Southern Ocean Lodge", "https://luxuryescapes.sjv.io/kOOQeM"⟩,
    ⟨"Orpheus Island Lodge", "Orpheus Island Lodge", "https://luxuryescapes.sjv.io/JKKoGQ"⟩
  ]),
  ("Bali", [
    ⟨"Bali", "Akashi Residence", "https://luxuryescapes.sjv.io/POOY6Q"⟩,
    ⟨"Bali", "Bvlgari Resort Bali", "https://luxuryescapes.sjv.io/raae2v"⟩,
    ⟨"Bali", "Villa Ambra", "https://luxuryescapes.sjv.io/Kjn7Qe"⟩,
    ⟨"Bali", "Tanah Gajah", "https://luxuryescapes.sjv.io/xk4G4R"⟩,
    ⟨"Bali", "Hanging Gardens of Bali", "https://luxuryescapes.sjv.io/7aaLMg"⟩
  ]),
  ("Dubai", [
    ⟨"Burj Al Arab Jumeirah", "Burj Al Arab Jumeirah", "https://luxuryescapes.sjv.io/0ZLb7M"⟩,
    ⟨"W Dubai The Palm Jumeriah", "W Dubai The Palm Jumeriah", "https://luxuryescapes.sjv.io/EKnAxQ"⟩,
    ⟨"The Ritz-Carlton", "The Ritz-Carlton", "https://luxuryescapes.sjv.io/GKKoVm"⟩,
    ⟨"ME Dubai by Meliá", "ME Dubai by Meliá", "https://luxuryescapes.sjv.io/gOOL6A"⟩,
    ⟨"Al Maha", "Al Maha", "https://luxuryescapes.sjv.io/EEEGe2"⟩
  ]),
  ("Fiji", [
    ⟨"Wakaya Club and Spa", "Wakaya Club and Spa", "https://luxuryescapes.sjv.io/21x4kQ"⟩,
    ⟨"Sheraton Denarau Villas", "Sheraton Denarau Villas", "https://luxuryescapes.sjv.io/9g5KW5"⟩,
    ⟨"Malolo Island Resort", "Malolo Island Resort", "https://luxuryescapes.sjv.io/xLLXWk"⟩,
    ⟨"Tokoriki Island Resort", "Tokoriki Island Resort", "https://luxuryescapes.sjv.io/g1Z3P9"⟩,
    ⟨"Royal Davui Island Resort", "Royal Davui Island Resort", "https://luxuryescapes.sjv.io/jeeDon"⟩
  ]),
  ("England", [
    ⟨"London", "Kinnerton Street", "https://luxuryescapes.sjv.io/gOOLZ5"⟩,
    ⟨"London", "Corinthia London", "https://luxuryescapes.sjv.io/099XL3"⟩,
    ⟨"Slough", "The Langley", "https://luxuryescapes.sjv.io/EEEGoX"⟩,
    ⟨"London", "Mandarin Oriental Hyde Park", "https://luxuryescapes.sjv.io/2aaXxD"⟩,
    ⟨"London", "Shangri-La Hotel", "https://luxuryescapes.sjv.io/dOO31Q"⟩
  ]),
  ("France", [
    ⟨"Chamonix-Mont-Blanc", "Chalet Freya", "https://luxuryescapes.sjv.io/qzzkRn"⟩,
    ⟨"Paris", "Hôtel Plaza Athénée", "https://luxuryescapes.sjv.io/raaevG"⟩,
    ⟨"Paris", "Rue Custine II", "https://luxuryescapes.sjv.io/GKKoaB"⟩,
    ⟨"Cassis", "Hôtel Les Roches Blanches", "https://luxuryescapes.sjv.io/gOOLz0"⟩,
    ⟨"Paris", "Grand Hotel du Palais Royal", "https://luxuryescapes.sjv.io/3JJX2A"⟩
  ]),
  ("Greece", [
    ⟨"Zakynthos", "Lesante Cape Resort & Villas", "https://luxuryescapes.sjv.io/DyyA5q"⟩,
    ⟨"Rethymno", "Grecotel LUX ME White Palace", "https://luxuryescapes.sjv.io/POOYoq"⟩,
    ⟨"Athens", "Hotel Grande Bretagne", "https://luxuryescapes.sjv.io/GKKoaB"⟩,
    ⟨"Mykonos", "Mykonos Princess Hotel", "https://luxuryescapes.sjv.io/Xmmo6M"⟩,
    ⟨"Santorini", "One of One Hotel", "https://luxuryescapes.sjv.io/099XbL"⟩
  ]),
  ("Germany", [
    ⟨"Düsseldorf", "Breidenbacher Hof", "https://luxuryescapes.sjv.io/2aaXOG"⟩,
    ⟨"Berlin", "Waldorf Astoria Berlin", "https://luxuryescapes.sjv.io/RGGYAy"⟩,
    ⟨"Berlin", "SO/ Berlin Das Stue", "https://luxuryescapes.sjv.io/N99o5N"⟩,
    ⟨"Hamburg", "The Westin Hamburg", "https://luxuryescapes.sjv.io/7aaLEO"⟩,
    ⟨"Heringsdorf", "Das Ahlbeck Hotel & Spa", "https://luxuryescapes.sjv.io/kOOQyv"⟩
  ]),
  ("Italy", [
    ⟨"Taormina", "San Domenico Palace", "https://luxuryescapes.sjv.io/o44Pme"⟩,
    ⟨"Bellagio", "Hotel Belvedere", "https://luxuryescapes.sjv.io/nXXjrR"⟩,
    ⟨"Portoferraio", "Hotel Hermitage", "https://luxuryescapes.sjv.io/xLLXWk"⟩,
    ⟨"Tremezzina", "Grand Hotel Tremezzo", "https://luxuryescapes.sjv.io/mOOr9y"⟩,
    ⟨"Praiano", "Casa Angelina", "https://luxuryescapes.sjv.io/DyyA9G"⟩
  ]),
  ("Portugal", [
    ⟨"Funchal", "Pestana Grand Premium Ocean Resort", "https://luxuryescapes.sjv.io/Dyy1Wa"⟩,
    ⟨"Évora", "Imani Country House", "https://luxuryescapes.sjv.io/MAAjK2"⟩,
    ⟨"Calheta", "Calheta Beach", "https://luxuryescapes.sjv.io/bOOy7b"⟩,
    ⟨"Loulé", "Hotel Quinta do Lago", "https://luxuryescapes.sjv.io/3JJO7k"⟩,
    ⟨"Vila Nova de Gaia", "Vinha Boutique Hotel", "https://luxuryescapes.sjv.io/4GGKdr"⟩
  ]),
  ("Spain", [
    ⟨"Capdepera", "Cap Vermell Grand Hotel", "https://luxuryescapes.sjv.io/kOObVL"⟩,
    ⟨"Barcelona", "Alma Barcelona GL", "https://luxuryescapes.sjv.io/XmmZrX"⟩,
    ⟨"Barcelona", "Monument Hotel", "https://luxuryescapes.sjv.io/WyyK9A"⟩,
    ⟨"Madrid", "Mandarin Oriental Ritz", "https://luxuryescapes.sjv.io/EEEVx2"⟩,
    ⟨"Barcelona", "Mandarin Oriental", "https://luxuryescapes.sjv.io/3JJORM"⟩
  ]),
  ("Maldives", [
    ⟨"Sonera Jani", "Sonera Jani", "https://luxuryescapes.sjv.io/rQvLJG"⟩,
    ⟨"Soneva Fushi", "Soneva Fushi", "https://luxuryescapes.sjv.io/zNLYeG"⟩,
    ⟨"One & Only Reethi Rah", "One & Only Reethi Rah", "https://luxuryescapes.sjv.io/Wqm733"⟩,
    ⟨"Gili Lankanfushi", "Gili Lankanfushi", "https://luxuryescapes.sjv.io/xk4G4R"⟩,
    ⟨"Kudadoo Maldives", "Kudadoo Maldives", "https://luxuryescapes.sjv.io/gOONLA"⟩
  ]),
  ("Thailand", [
    ⟨"Phuket", "The Chava Resort", "https://luxuryescapes.sjv.io/QjjeWY"⟩,
    ⟨"Phuket", "Banyan Tree Phuket", "https://luxuryescapes.sjv.io/POOkW6"⟩,
    ⟨"Phuket", "InterContinental Phuket Resort", "https://luxuryescapes.sjv.io/APPaGR"⟩,
    ⟨"Phuket", "Trisara", "https://luxuryescapes.sjv.io/XmmZK5"⟩,
    ⟨"Phuket", "The Shore at Katathani", "https://luxuryescapes.sjv.io/WyyK03"⟩,
    ⟨"Koh Samui", "Baan Kilee", "https://luxuryescapes.sjv.io/kOOqAx"⟩,
    ⟨"Koh Samui", "Villa Akatsuki", "https://luxuryescapes.sjv.io/Oee5WA"⟩,
    ⟨"Koh Samui", "Panacea Retreat | Praana Residence", "https://luxuryescapes.sjv.io/4GGKq1"⟩,
    ⟨"Koh Samui", "Ban Suriya", "https://luxuryescapes.sjv.io/K009Wa"⟩,
    ⟨"Koh Samui", "Villa Riva", "https://luxuryescapes.sjv.io/e11Bjg\x7d"⟩,
    ⟨"Koh Samui", "Conrad Koh Samui Residences", "https://luxuryescapes.sjv.io/Dyy1aq"⟩,
    ⟨"Krabi", "Banyan Tree Krabi", "https://luxuryescapes.sjv.io/K00NYv"⟩,
    ⟨"Bangkok", "The Athenee Hotel", "https://luxuryescapes.sjv.io/yqqLxy"⟩,
    ⟨"Khoa Lak", "JW Marriott Khao Lak Resort Suites", "https://luxuryescapes.sjv.io/9LLQBQ"⟩,
    ⟨"Khoa Lak", "Devasom Khao Lak", "https://luxuryescapes.sjv.io/aOO6ZQ"⟩,
    ⟨"Khoa Lak", "Avani+ Khao Lak Resort", "https://luxuryescapes.sjv.io/gOONQ0"⟩,
    ⟨"Khoa Lak", "Le Meridien Khao Lak Resort & Spa", "https://luxuryescapes.sjv.io/WyyKPn"⟩,
    ⟨"Khoa Lak", "Mai Khao Lak Beach Resort & Spa", "https://luxuryescapes.sjv.io/RGGaNy"⟩
  ]),
  ("Japan", [
    ⟨"Tokyo", "Mandarin Oriental Tokyo", "https://luxuryescapes.sjv.io/raaP1j"⟩,
    ⟨"Tokyo", "Shangri-La Tokyo", "https://luxuryescapes.sjv.io/Vxx5v6"⟩,
    ⟨"Appi", "Kogen ANA Crowne Plaza Resort", "https://luxuryescapes.sjv.io/099NMO"⟩
  ]),
  ("Jamaica", [
    ⟨"Montego Bay", "Breathless Motego Bay", "https://luxuryescapes.sjv.io/K00Nv7"⟩,
    ⟨"Green Island", "Princess Senses The Mangrove Resort", "https://luxuryescapes.sjv.io/gOOE7g"⟩,
    ⟨"Falmouth", "Royalton Blue Waters Montego Bay", "https://luxuryescapes.sjv.io/kOOqv0"⟩,
    ⟨"Lucea", "Grand Palladium Lady Hamilton Resort & Spa", "https://luxuryescapes.sjv.io/Vxx5K6"⟩
  ]),
  ("China", [
    ⟨"Beijing", "The Peninsula Beijing", "https://luxuryescapes.sjv.io/099N5O"⟩,
    ⟨"Shenzhen", "Park Hyatt Shenzhen", "https://luxuryescapes.sjv.io/bOOoKg"⟩,
    ⟨"Guangzhou", "Jumeirah Guangzhou", "https://luxuryescapes.sjv.io/yqq1vN"⟩,
    ⟨"Shanghai", "Shanghai Marriott Marquis City Centre", "https://luxuryescapes.sjv.io/QjjQXa"⟩
  ]),
  ("Hong Kong", [
    ⟨"Kowloon", "Rosewood Hong Kong", "https://luxuryescapes.sjv.io/DyyNdb"⟩,
    ⟨"Hong Kong", "Four Seasons Hotel", "https://luxuryescapes.sjv.io/APPNMa"⟩,
    ⟨"Kowloon", "The Peninsula Hong Kong", "https://luxuryescapes.sjv.io/Vxx5Dj"⟩,
    ⟨"Kowloon", "The Ritz Carlton Hong Kong", "https://luxuryescapes.sjv.io/WyykQe"⟩,
    ⟨"Hong Kong", "Grand Hyatt Hong Kong", "https://luxuryescapes.sjv.io/dOOzJ2"⟩
  ]),
  ("Norway", [
    ⟨"Ullensvang", "Hotel Ullensvang", "https://luxuryescapes.sjv.io/7aaNk5"⟩,
    ⟨"Voss", "Fleischer's Hotel", "https://luxuryescapes.sjv.io/kOOqGV"⟩,
    ⟨"Hol", "Highland Lodge Fjellandsby", "https://luxuryescapes.sjv.io/o449ZW"⟩
  ]),
  ("Switzerland", [
    ⟨"St Moritz", "Carlton Hotel St Moritz", "https://luxuryescapes.sjv.io/xLLGPR"⟩,
    ⟨"St Moritz", "Suvretta House", "https://luxuryescapes.sjv.io/jeeLg6"⟩,
    ⟨"Geneva", "The Ritz-Carlton, Hotel de la Paix", "https://luxuryescapes.sjv.io/199N3x"⟩,
    ⟨"Arosa", "Tschuggen Grand Hotel", "https://luxuryescapes.sjv.io/BnnMQW"⟩,
    ⟨"Lenk", "Lenkerhof Gourmet Spa Resort", "https://luxuryescapes.sjv.io/OeexQr"⟩
  ]),
  ("Mexico", [
    ⟨"Los Cabos", "Esperanza Auberge Resorts", "https://luxuryescapes.sjv.io/q4b1GN"⟩,
    ⟨"Cancun", "Hyatt Ziva", "https://luxuryescapes.sjv.io/VmrdVa"⟩,
    ⟨"Cancun", "Marriott Cancun", "https://luxuryescapes.sjv.io/AWz5ax"⟩,
    ⟨"Cancun", "Ava Resort", "https://luxuryescapes.sjv.io/anJDJY"⟩,
    ⟨"Los Cabos", "One & Only", "https://luxuryescapes.sjv.io/21xOyG"⟩
  ]),
  ("Hawaii", [
    ⟨"Timbers Kauai Ocean Club and Residences", "Timbers Kauai Ocean Club and Residences", "https://luxuryescapes.sjv.io/21PdzA"⟩,
    ⟨"The Lodge at Kukuiula", "The Lodge at Kukuiula", "https://luxuryescapes.sjv.io/Y95NPr"⟩,
    ⟨" Four Seasons Resort Hualalai", " Four Seasons Resort", "https://luxuryescapes.sjv.io/GKKq46"⟩,
    ⟨"Ko'a Kea Resort on Po'ipu Beach", "Ko'a Kea Resort", "https://luxuryescapes.sjv.io/o44bve"⟩,
    ⟨"Beverly Hills", "Waldorf Astoria", "https://luxuryescapes.sjv.io/6yyq1E"⟩,
    ⟨"Fairmont Kea Lani Maui", "Fairmont Kea Lani Maui", "https://luxuryescapes.sjv.io/zxxqvx"⟩
  ]),
  ("California", [
    ⟨"Santa Barbara", "El Encanto", "https://luxuryescapes.sjv.io/RGGao2"⟩,
    ⟨"Los Angeles", "Four Seasons Los AnMeadowood Napa Valleygeles", "https://luxuryescapes.sjv.io/N99PJP"⟩,
    ⟨"St. Helena", "Meadowood Napa Valley", "https://luxuryescapes.sjv.io/xLLbv3"⟩,
    ⟨"Beverly Hills", "The Peninsula Beverly Hills", "https://luxuryescapes.sjv.io/QjjeX9"⟩
  ]),
  ("Las Vegas", [
    ⟨"Four Seasons Hotel", "Four Seasons Hotel", "https://luxuryescapes.sjv.io/gOON7v"⟩,
    ⟨"Waldorf Astoria", "Waldorf Astoria", "https://luxuryescapes.sjv.io/WyyKQO"⟩,
    ⟨"The Cosmopolitan Of Las Vegas", "The Cosmopolitan Of Las Vegas", "https://luxuryescapes.sjv.io/nXXb6R"⟩,
    ⟨"Secret Suites at Vdara", "Secret Suites at Vdara", "https://luxuryescapes.sjv.io/4GGKnL"⟩,
    ⟨"The Palazzo at The Venetian", "The Palazzo at The Venetian", "https://luxuryescapes.sjv.io/N99PyP"⟩
  ]),
  ("New Orleans", [
    ⟨"The Windsor Court", "The Windsor Court", "https://luxuryescapes.sjv.io/Qjjed9"⟩,
    ⟨"The Ritz-Carlton", "The Ritz-Carlton", "https://luxuryescapes.sjv.io/kOOb2x"⟩,
    ⟨"W New Orleans", "W New Orleans", "https://luxuryescapes.sjv.io/555LPb"⟩,
    ⟨"Hotel Monteleone", "Hotel Monteleone", "https://luxuryescapes.sjv.io/199OQD"⟩,
    ⟨"Hyatt Regency New Orleans", "Hyatt Regency", "https://luxuryescapes.sjv.io/nXXbJV"⟩
  ]),
  ("Miami", [
    ⟨"South Beach", "The Retreat Collection at 1 Hotel & Homes", "https://luxuryescapes.sjv.io/APPaDK"⟩,
    ⟨"Miami Beach", "The Setai Residence", "https://luxuryescapes.sjv.io/o44bWo"⟩,
    ⟨"Miami Beach", "Faena Hotel", "https://luxuryescapes.sjv.io/YRRoxe"⟩,
    ⟨"The Setai", "The Setai", "https://luxuryescapes.sjv.io/raabxj"⟩,
    ⟨"South Beach", "W", "https://luxuryescapes.sjv.io/APPaVa"⟩
  ])
]

/-- The `"tours"` sub-dictionary of `affiliate_links` (Luxury_Travel_Bot.py 853-863). -/
def affiliate_links_tours : List (String × String) := [
  ("Africa", "https://luxuryescapes.com/us/search/tours?destinationId=le_b02e6098244d867ef9e033afaf097d81&destinationName=Africa"),
  ("Australia", "https://luxuryescapes.com/us/search/tours?destinationId=le_d3d9446802a44259755d38e6d163e820&destinationName=Australia"),
  ("Vietnam", "https://luxuryescapes.com/us/search/tours?destinationId=le_a597e50502f5ff68e3e25b9114205d4a&destinationName=Vietnam"),
  ("India", "https://luxuryescapes.com/us/search/tours?destinationId=le_f033ab37c30201f73f142449d037028d&destinationName=India"),
  ("Japan", "https://luxuryescapes.com/us/search/tours?destinationId=le_7647966b7343c29048673252e490f736&destinationName=Japan"),
  ("Spain", "https://luxuryescapes.com/us/search/tours?destinationId=le_7e7757b1e12abcb736ab9a754ffb617a&destinationName=Spain"),
  ("Sri Lanka", "https://luxuryescapes.com/us/search/tours?destinationId=le_5878a7ab84fb43402106c575658472fa&destinationName=Sri%20Lanka"),
  ("Turkey", "https://luxuryescapes.com/us/search/tours?destinationId=le_cedebb6e872f539bef8c3f919874e9d7&destinationName=Turkey"),
  ("Egypt", "https://luxuryescapes.com/us/search/tours?destinationId=le_9a1158154dfa42caddbd0694a4e9bdc8&destinationName=Egypt")
]

/-- An `affiliate_links` dictionary value: either the `"getaways"` mapping of
region name to entry list, or the `"tours"` mapping of region name to a
tour-search URL. -/
inductive AffVal where
  | regions (rs : List (String × List AffEntry)) : AffVal
  | tourUrls (ts : List (String × String)) : AffVal

/-- The top-level `affiliate_links` dictionary, in insertion order: it has
exactly the two keys `"getaways"` and `"tours"`. -/
def affiliate_links : List (String × AffVal) :=
  [("getaways", .regions affiliate_links_getaways),
   ("tours", .tourUrls affiliate_links_tours)]

/-- `list(affiliate_links.keys())`: the top-level key list of the dictionary,
in insertion order. -/
def affiliate_links_keys : List String := affiliate_links.map (fun kv => kv.1)

/-- The region names of the getaway catalog, in insertion order. -/
def region_names : List String := affiliate_links_getaways.map (fun kv => kv.1)

/-! ### Destination resolver (Luxury_Travel_Bot_old.py 1517-1585) -/

/-- `extract_destinations_with_links`: flatten the `"getaways"` mapping to a
list of (destination display name, booking link) pairs in catalog iteration
order (regions in insertion order, entries in list order). Values that are
not entry lists are skipped by the source's `isinstance` guard, so only the
region lists contribute. -/
def extract_destinations_with_links (getaways : List (String × List AffEntry)) :
    List (String × String) :=
  (getaways.map (fun rd => rd.2.map (fun e => (e.destination, e.link)))).flatten

/-- `select_destination_with_affiliate_links` (its returned value; the PDF
side effects append one paragraph per returned pair): keep every
(destination, link) pair of the flattened catalog whose destination name
occurs as a substring of the generated text, in catalog iteration order. -/
def select_destination_with_affiliate_links (response_text : String)
    (getaways : List (String × List AffEntry)) : List (String × String) :=
  let dwl := extract_destinations_with_links getaways
  if dwl.isEmpty then []
  else
    let matched := dwl.filter (fun dl => substr dl.1 response_text)
    if matched.isEmpty then [] else matched

/-- Index of the first occurrence of `needle` in `hay` (character lists),
`none` when it does not occur. Used to state text-appearance order. -/
def firstOccAux (needle : List Char) : List Char → Option Nat
  | [] => if needle.isEmpty then some 0 else none
  | c :: rest =>
    if listStartsWith needle (c :: rest) then some 0
    else (firstOccAux needle rest).map (· + 1)

/-- Index of the first occurrence of `needle` in `hay` (strings). -/
def firstOcc (needle hay : String) : Option Nat :=
  firstOccAux needle.data hay.data

end TravelBot

namespace TravelBot

/-! ### Getaway prompt construction (`generate_getaway`, Luxury_Travel_Bot.py 1089-1142) -/

mutual

/-- Python `str(v)` as used by f-string interpolation of a parameter value.
(`str.join` over a list with non-string members raises `TypeError` in
Python; list members are rendered here with a repr-like quoting, which is
exercised by no claim — every instantiation below interpolates strings,
integers or `None`.) -/
def pyStr : PyVal → String
  | .null => "None"
  | .str s => s
  | .num n => toString n
  | .boolean b => if b then "True" else "False"
  | .list l => "[" ++ String.intercalate ", " (pyReprList l) ++ "]"

/-- Renders each member of a list the way Python's `repr` does inside
`str(list)`: strings are quoted, other values rendered as by `str`. -/
def pyReprList : List PyVal → List String
  | [] => []
  | .str s :: vs => ("\x27" ++ s ++ "\x27") :: pyReprList vs
  | v :: vs => pyStr v :: pyReprList vs

end

/-- The prompt string assembled by `generate_getaway` before its model call.
`affiliate_destinations = list(affiliate_links.keys())` takes the TOP-LEVEL
keys of `affiliate_links` — `["getaways", "tours"]` — not the region names
of the getaway catalog. -/
def getaway_prompt (p : Params) : String :=
  let budget := p.budget.getD (.str "$3000")
  let activities := p.preferred_activities.getD (.list [])
  let climate := p.climate_preferences.getD .null
  let geography := p.geography_scenery.getD .null
  let travelers := p.family_size.getD (.num 2)
  let activity_str :=
    match activities with
    | .list l => if l.isEmpty then "various activities" else String.intercalate ", " (l.map pyStr)
    | _ => "various activities"
  let affiliate_str := String.intercalate ", " affiliate_links_keys
  let isNonEmptyListVal : Bool :=
    match activities with
    | .list l => !l.isEmpty
    | _ => false
  "Suggest 3 eco-friendly luxury getaways for Eco Friendly Luxury Travels:\n\nBudget: "
    ++ pyStr budget ++ "\nTravelers: " ++ pyStr travelers ++ " people"
    ++ (if isNonEmptyListVal then "\nActivities: " ++ activity_str else "")
    ++ (if truthy climate then "\nClimate: " ++ pyStr climate else "")
    ++ (if truthy geography then "\nScenery: " ++ pyStr geography else "")
    ++ "\n\nIMPORTANT: Select destinations ONLY from this list (we have affiliate partnerships):\n"
    ++ affiliate_str
    ++ "\n\nMatch destinations to the requested activities and preferences. For example:\n- Skiing/snowboarding → Aspen, Vail, Whistler, St. Moritz\n- Beach/tropical → Maldives, Bali, Hawaii, Thailand\n- Culture/city → Paris, Rome, London, Dubai\n\nFor each destination:\n**Option X: [Destination Name] - [Catchy Title]**\n\n**Destination Description:**\n[Detailed description focusing on eco-friendly aspects and matching the requested activities]\n\n**Family Activities:** (if travelers > 2)\n[Activities suitable for families]\n\n**Scenery Preference:** [Type]\n**Climate Preference:** [Type]\n**Estimated Cost:** [Amount]\n\n[Compelling closing paragraph about sustainability]\n\nUse destinations from the affiliate list only. Format exactly like this with clear sections."

/-! ### Document assembly (`create_pdf`, Luxury_Travel_Bot.py 1164-1329)

The PDF story is modelled as a list of structurally classified blocks.
A paragraph block carries the raw source line; the markup-level text
transformation `clean_text_for_pdf` (HTML escaping, bold conversion)
changes only the rendered text of a paragraph, never the block's kind,
position or count, so it is not re-applied in the block model.
A `bannerSlot i` block marks one banner insertion and records which of the
three `BANNER_ADS` creatives (`BANNER_ADS[i]`) the insertion uses; whether
the creative's image file loads is an I/O concern of the rendering
collaborator and does not change the number of insertion slots. -/

/-- One structurally classified unit of the assembled document. -/
inductive Block where
  | brandTitle : Block
  | docTitle : Block
  | docSubtitle : Block
  | details : Block
  | optionHeader (text : String) : Block
  | dayHeader (text : String) : Block
  | costLine (text : String) : Block
  | bodyText (text : String) : Block
  | bannerSlot (i : Nat) : Block
  | bookingHeading : Block
  | linkLine (name : String) : Block
deriving DecidableEq, Repr

/-- The kind tag of a block, forgetting its text payload. -/
inductive BlockKind where
  | brandTitle | docTitle | docSubtitle | details
  | optionHeader | dayHeader | costLine | bodyText
  | bannerSlot | bookingHeading | linkLine
deriving DecidableEq, Repr

/-- Forget a block's payload. -/
def Block.kind : Block → BlockKind
  | .brandTitle => .brandTitle
  | .docTitle => .docTitle
  | .docSubtitle => .docSubtitle
  | .details => .details
  | .optionHeader _ => .optionHeader
  | .dayHeader _ => .dayHeader
  | .costLine _ => .costLine
  | .bodyText _ => .bodyText
  | .bannerSlot _ => .bannerSlot
  | .bookingHeading => .bookingHeading
  | .linkLine _ => .linkLine

/-- `re.split(r'(Option \d+:)', content)`: does `cs` begin with a match of
the delimiter pattern `Option \d+:`? On success, returns the matched
delimiter and the remaining characters. -/
def matchOption (cs : List Char) : Option (List Char × List Char) :=
  if listStartsWith "Option ".data cs then
    let r1 := cs.drop 7
    let ds := r1.takeWhile Char.isDigit
    let r2 := r1.dropWhile Char.isDigit
    if ds.isEmpty then none
    else
      match r2 with
      | ':' :: r3 => some ("Option ".data ++ ds ++ [':'], r3)
      | _ => none
  else none

/-- `listStartsWith pre l = true` forces `l` to be at least as long as `pre`. -/
theorem listStartsWith_length {pre l : List Char} (h : listStartsWith pre l = true) :
    pre.length ≤ l.length := by
  induction pre generalizing l with
  | nil => simp
  | cons a as ih =>
    cases l with
    | nil => simp [listStartsWith] at h
    | cons b bs =>
      simp only [listStartsWith, Bool.and_eq_true] at h
      simpa using ih h.2

/-- `dropWhile` never lengthens a list. -/
theorem length_dropWhile_le' (p : Char → Bool) (l : List Char) :
    (l.dropWhile p).length ≤ l.length := by
  induction l with
  | nil => simp
  | cons a as ih =>
    by_cases h : p a = true
    · simp only [List.dropWhile, h]
      exact le_trans ih (Nat.le_succ _)
    · simp only [List.dropWhile, h]
      simp

/-- A successful delimiter match strictly consumes input. -/
theorem matchOption_shrink {cs m r : List Char} (h : matchOption cs = some (m, r)) :
    r.length < cs.length := by
  unfold matchOption at h
  by_cases hs : listStartsWith "Option ".data cs = true
  · simp only [hs, if_true] at h
    by_cases hd : ((cs.drop 7).takeWhile Char.isDigit).isEmpty = true
    · simp [hd] at h
    · simp only [hd, Bool.false_eq_true, if_false] at h
      have hlen : 7 ≤ cs.length := by
        have := listStartsWith_length hs
        simpa using this
      revert h
      cases hw : (cs.drop 7).dropWhile Char.isDigit with
      | nil => intro h; exact absurd h (by simp)
      | cons c rest =>
        intro h
        by_cases hc : c = ':'
        · subst hc
          have hr : r = rest := by
            simp only [Option.some.injEq, Prod.mk.injEq] at h
            exact h.2.symm
          have h2 : ((cs.drop 7).dropWhile Char.isDigit).length ≤ (cs.drop 7).length :=
            length_dropWhile_le' _ _
          rw [hw] at h2
          simp only [List.length_cons, List.length_drop] at h2
          have h4 : r.length = rest.length := by rw [hr]
          omega
        · exact absurd h (by simp [hc])
  · simp [hs] at h

/-- The splitter underlying `re.split(r'(Option \d+:)', content)`:
`acc` holds the current inter-delimiter segment in reverse; matched
delimiters are kept in the output (the pattern is a capture group).
Recursion is by structural fuel so that the definition evaluates inside
the kernel; by `matchOption_shrink` every step consumes at least one
character, so fuel equal to the input length (as supplied by
`reSplitOption`) never runs out and the zero-fuel branch is unreachable. -/
def splitOptionAux : Nat → List Char → List Char → List (List Char)
  | _, acc, [] => [acc.reverse]
  | 0, acc, cs => [acc.reverse ++ cs]
  | fuel + 1, acc, c :: rest =>
    match matchOption (c :: rest) with
    | some (m, r3) => acc.reverse :: m :: splitOptionAux fuel [] r3
    | none => splitOptionAux fuel (c :: acc) rest

/-- `re.split(r'(Option \d+:)', content)` on strings. -/
def reSplitOption (content : String) : List String :=
  (splitOptionAux content.data.length [] content.data).map String.mk

/-- The per-line paragraph blocks of one getaway section: skip blank lines;
a line whose stripped form starts with `Option` becomes a section-title
(option header) paragraph, anything else a normal paragraph. -/
def lineBlocksGetaway (section_ : String) : List Block :=
  (pySplitNl section_).filterMap (fun line =>
    if pyStrip line == "" then none
    else if strStartsWith "Option" (pyStrip line) then some (.optionHeader line)
    else some (.bodyText line))

/-- The getaway content loop of `create_pdf` (lines 1229-1267): emit the
paragraph blocks of each non-blank section; after a section containing
`Option`, while fewer than 3 banners have been placed, insert banner
`BANNER_ADS[banner_idx % 3]` and advance `banner_idx`. -/
def getawaySectionsBlocks : List String → Nat → List Block
  | [], _ => []
  | s :: rest, idx =>
    if pyStrip s == "" then getawaySectionsBlocks rest idx
    else
      let lineBlocks := lineBlocksGetaway s
      if substr "Option" s && decide (idx < 3) then
        lineBlocks ++ [.bannerSlot (idx % 3)] ++ getawaySectionsBlocks rest (idx + 1)
      else
        lineBlocks ++ getawaySectionsBlocks rest idx

/-- The itinerary content loop of `create_pdf` (lines 1270-1283): skip blank
lines; a line whose stripped form starts with `Day ` or `**Day ` becomes a
day-header paragraph, anything else a normal paragraph. No other
classification exists in this revision. -/
def itineraryContentBlocks (content : String) : List Block :=
  (pySplitNl content).filterMap (fun line =>
    if pyStrip line == "" then none
    else
      let ol := pyStrip line
      if strStartsWith "Day " ol || strStartsWith "**Day " ol then some (.dayHeader line)
      else some (.bodyText line))

/-- `destinations_found` of the getaway booking-links section (1293-1296):
the TOP-LEVEL keys of `affiliate_links` (`"getaways"`, `"tours"`) that
occur as substrings of the generated content. -/
def destinations_found (content : String) : List String :=
  affiliate_links_keys.filter (fun k => substr k content)

/-- The elements Python iterates over in `for dest in destinations_to_link`
when the fallback value is a raw parameter value: a list yields its
members, a string yields its characters. (Iterating a number raises
`TypeError` in Python, aborting `create_pdf`; that error path is exercised
by no claim and yields no link block.) -/
def iterElems : PyVal → List PyVal
  | .list l => l
  | .str s => s.data.map (fun c => .str (String.mk [c]))
  | _ => []

/-- `parameters['destination'] if parameters.get('destination') else []`:
the fallback link candidates used when no catalog key was found in the
content. -/
def fallback_candidates (p : Params) : List PyVal :=
  match p.destination with
  | some v => if truthy v then iterElems v else []
  | none => []

/-- One iteration of the footer loop `for dest in destinations_to_link`:
a string candidate that is a top-level catalog key becomes a link line
(`if dest in affiliate_links`); anything else emits nothing. (A Python
list candidate would be unhashable and raise inside `dest in
affiliate_links`, aborting `create_pdf`; no claim exercises that path.) -/
def linkBlockOf (v : PyVal) : Option Block :=
  match v with
  | .str s => if affiliate_links_keys.contains s then some (.linkLine s) else none
  | _ => none

/-- The booking-links footer of a getaway document (lines 1285-1320): the
`Booking Links:` heading is appended unconditionally; then one link line
per candidate destination that is a TOP-LEVEL key of `affiliate_links`.
Candidates are the found keys, or — when none was found — the raw
`destination` parameter value (falling back to `[]` when absent/falsy). -/
def bookingBlocksGetaway (content : String) (p : Params) : List Block :=
  let found := destinations_found content
  let destinations_to_link : List PyVal :=
    if !found.isEmpty then found.map .str
    else fallback_candidates p
  Block.bookingHeading :: destinations_to_link.filterMap linkBlockOf

/-- The full block story of a getaway document assembled by `create_pdf`
(`doc_type == "getaway"`): brand title, document title, subtitle, the
budget/travelers details line, the sectioned content with banner slots,
then the booking-links footer. -/
def create_pdf_story_getaway (content : String) (p : Params) : List Block :=
  [.brandTitle, .docTitle, .docSubtitle, .details]
    ++ getawaySectionsBlocks (reSplitOption content) 0
    ++ bookingBlocksGetaway content p

/-! ### The chat endpoint (`chat`, Luxury_Travel_Bot.py 1377-1432) -/

/-- The JSON-visible outcome of one `POST /api/chat` request. -/
inductive ChatResult where
  | badRequest : ChatResult
  | capability (parameters : Params) : ChatResult
  | generationError : ChatResult
  | ok (content : String) (parameters : Params) (intent : String)
      (pdf : Option String) : ChatResult

/-- The `chat` handler: reject an empty message; otherwise FIRST run
parameter extraction (one model-backed call), THEN route by keywords.
The two generators and the PDF pipeline are external oracles
(`genGetaway`, `genItinerary`, `pdfPath`). An unknown intent returns the
static capability text together with the extracted parameters. -/
def chat (message : String) (outcome : ModelOutcome)
    (loads : String → Option Params)
    (genGetaway genItinerary : Params → Option String)
    (pdfPath : Option String) : ChatResult :=
  if message == "" then .badRequest
  else
    let parameters := extract_parameters outcome loads
    match route message with
    | .getaway =>
      match genGetaway parameters with
      | none => .generationError
      | some content => .ok content parameters "getaway" pdfPath
    | .itinerary =>
      match genItinerary parameters with
      | none => .generationError
      | some content => .ok content parameters "itinerary" pdfPath
    | .unknown => .capability parameters

end TravelBot

namespace TravelBot

/-! ### Helper lemmas -/

/-- Filtering by truthiness is idempotent. -/
theorem filter_truthy_idem (l : List PyVal) :
    (l.filter truthy).filter truthy = l.filter truthy := by
  induction l with
  | nil => rfl
  | cons a as ih =>
    by_cases h : truthy a = true
    · simp [List.filter_cons, h, ih]
    · simp only [List.filter_cons, h]
      simpa [h] using ih

/-- After normalization, `destination` is a non-empty list value all of whose
members are truthy (so filtering it again by truthiness changes nothing). -/
theorem normalize_destination_spec (p : Params) :
    ∃ l, (normalize_parameters p).destination = some (.list l)
      ∧ l ≠ [] ∧ l.filter truthy = l := by
  unfold normalize_parameters
  cases hd : p.destination with
  | none => exact ⟨[.str "Paris"], by simp, by simp, rfl⟩
  | some v =>
    by_cases hv : truthy v = true
    · by_cases hl : ((wrapList v).filter truthy).isEmpty = true
      · have ht2 : truthy (.list ((wrapList v).filter truthy)) = false := by
          simp [truthy, hl]
        exact ⟨[.str "Paris"], by simp [hv, ht2], by simp, rfl⟩
      · have ht2 : truthy (.list ((wrapList v).filter truthy)) = true := by
          simp [truthy, hl]
        exact ⟨(wrapList v).filter truthy, by simp [hv, ht2],
          by simpa using hl, filter_truthy_idem _⟩
    · have hv' : truthy v = false := by simpa using hv
      exact ⟨[.str "Paris"], by simp [hv'], by simp, rfl⟩

/-! ### Claims -/

/-- **C9.** Parameter normalization is idempotent: for every parameter
record `p`, `normalize_parameters (normalize_parameters p) =
normalize_parameters p`; applying normalization to an already-normalized
record changes no field. -/
theorem C9_normalize_idempotent (p : Params) :
    normalize_parameters (normalize_parameters p) = normalize_parameters p := by
  obtain ⟨l, hdl, hne, hfix⟩ := normalize_destination_spec p
  have ht : truthy (.list l) = true := by
    simp [truthy, List.isEmpty_iff, hne]
  have h2 : (normalize_parameters p).number_of_days
      = some (p.number_of_days.getD (.num 7)) := by
    simp [normalize_parameters]
  have h3 : (normalize_parameters p).family_size
      = some (p.family_size.getD (.num 2)) := by
    simp [normalize_parameters]
  have h4 : (normalize_parameters p).budget
      = some (p.budget.getD (.str "$5000")) := by
    simp [normalize_parameters]
  rcases hq : normalize_parameters p with ⟨d, nod, bud, act, fam, ag, td, cp, gs⟩
  rw [hq] at hdl h2 h3 h4
  simp only at hdl h2 h3 h4
  subst hdl h2 h3 h4
  unfold normalize_parameters
  simp [ht, wrapList, hfix]

end TravelBot

namespace TravelBot

/-- Positivity of a stored day/size value in the sense of the claim:
the key holds a positive integer. -/
def isPosIntVal : Option PyVal → Bool
  | some (.num n) => decide (0 < n)
  | _ => false

/-- A parse result in which the model reported `number_of_days = 0`
(present but falsy) and mentioned nothing else. -/
def c1Params : Params := { number_of_days := some (.num 0) }

/-- A JSON-library oracle returning that parse result. -/
def c1Loads : String → Option Params := fun _ => some c1Params

/-- **C1, counterexample.** When the model answers 200 with body `"{}"` and
the parsed dict carries `number_of_days = 0`, `extract_parameters` returns
a record whose `number_of_days` is `0` — present but NOT a positive
integer, because `setdefault` keeps a present falsy value. The claim's
"positive integer `numberOfDays`" is therefore false as stated. -/
theorem C1_counterexample :
    (extract_parameters (.resp 200 "\x7b\x7d") c1Loads).number_of_days
        = some (.num 0)
    ∧ isPosIntVal ((extract_parameters (.resp 200 "\x7b\x7d") c1Loads).number_of_days)
        = false := by
  exact ⟨rfl, rfl⟩

/-- Every run of `extract_parameters` returns either a normalized parse
result or the fixed default record. -/
theorem extract_shape (outcome : ModelOutcome) (loads : String → Option Params) :
    (∃ q, extract_parameters outcome loads = normalize_parameters q)
    ∨ extract_parameters outcome loads = get_default_parameters := by
  cases outcome with
  | fail => exact Or.inr rfl
  | resp status content =>
    by_cases hs : (status == 200) = true
    · cases hj : jsonSubstr content with
      | none => exact Or.inr (by simp [extract_parameters, hs, hj])
      | some js =>
        cases hl : loads js with
        | none => exact Or.inr (by simp [extract_parameters, hs, hj, hl])
        | some q => exact Or.inl ⟨q, by simp [extract_parameters, hs, hj, hl]⟩
    · exact Or.inr (by simp [extract_parameters, hs])

/-- **C1, amended.** `extract_parameters` is total (it is a function of the
call outcome; every failure path returns the default record) and always
returns a record with a non-empty `destination` list and with
`number_of_days` and `family_size` keys present; but those two fields are
only defaulted (to 7 and 2) when the key is ABSENT from the parsed dict —
a present falsy value such as `0` or `None` is preserved, so the returned
record need not carry positive integers there. -/
theorem C1_extract_never_fails_defaults_only_if_missing
    (outcome : ModelOutcome) (loads : String → Option Params) (p : Params) :
    (∃ l, (extract_parameters outcome loads).destination = some (.list l) ∧ l ≠ [])
    ∧ (extract_parameters outcome loads).number_of_days.isSome = true
    ∧ (extract_parameters outcome loads).family_size.isSome = true
    ∧ (normalize_parameters p).number_of_days = some (p.number_of_days.getD (.num 7))
    ∧ (normalize_parameters p).family_size = some (p.family_size.getD (.num 2)) := by
  refine ⟨?_, ?_, ?_, by simp [normalize_parameters], by simp [normalize_parameters]⟩
  · rcases extract_shape outcome loads with ⟨q, hq⟩ | hq
    · rw [hq]
      obtain ⟨l, hl, hne, _⟩ := normalize_destination_spec q
      exact ⟨l, hl, hne⟩
    · rw [hq]
      exact ⟨[.str "Paris"], rfl, by simp⟩
  · rcases extract_shape outcome loads with ⟨q, hq⟩ | hq
    · rw [hq]; simp [normalize_parameters]
    · rw [hq]; rfl
  · rcases extract_shape outcome loads with ⟨q, hq⟩ | hq
    · rw [hq]; simp [normalize_parameters]
    · rw [hq]; rfl

/-- **C2.** Whenever the lower-cased message contains at least one getaway
keyword and at least one itinerary keyword, routing returns `getaway`:
the getaway keyword set is checked first and outranks the itinerary set. -/
theorem C2_getaway_outranks_itinerary (message : String)
    (hg : getaway_keywords.any (fun w => substr w (pyLower message)) = true)
    (_hi : itinerary_keywords.any (fun w => substr w (pyLower message)) = true) :
    route message = Intent.getaway := by
  unfold route
  simp [hg]

/-- **C2, witness.** `"plan a weekend getaway trip"` contains the getaway
keywords `weekend`/`getaway` and the itinerary keywords `plan`/`trip`, and
routes to `getaway`. -/
theorem C2_getaway_outranks_itinerary_witness :
    getaway_keywords.any (fun w => substr w (pyLower "plan a weekend getaway trip")) = true
    ∧ itinerary_keywords.any (fun w => substr w (pyLower "plan a weekend getaway trip")) = true
    ∧ route "plan a weekend getaway trip" = Intent.getaway :=
  ⟨by decide, by decide,
    C2_getaway_outranks_itinerary "plan a weekend getaway trip" (by decide) (by decide)⟩

/-- **C10.** For every non-empty message that matches no intent keyword, the
chat handler still runs parameter extraction (the one model-backed call,
performed before routing) and its static capability-description response
carries exactly the extracted parameter record. -/
theorem C10_chat_extracts_before_routing (message : String) (outcome : ModelOutcome)
    (loads : String → Option Params) (genG genI : Params → Option String)
    (pdfPath : Option String)
    (hne : message ≠ "") (hr : route message = Intent.unknown) :
    chat message outcome loads genG genI pdfPath
      = ChatResult.capability (extract_parameters outcome loads) := by
  unfold chat
  have hb : (message == "") = false := by
    simpa using hne
  rw [hb]
  simp [hr]

/-- **C10, witness.** The keyword-free message `"hello"` with a failed
extraction call yields the capability response carrying the default
(extracted) parameters. -/
theorem C10_chat_extracts_before_routing_witness :
    "hello" ≠ "" ∧ route "hello" = Intent.unknown
    ∧ chat "hello" .fail (fun _ => none) (fun _ => none) (fun _ => none) none
      = ChatResult.capability (extract_parameters .fail (fun _ => none)) :=
  ⟨by decide, by decide,
    C10_chat_extracts_before_routing "hello" .fail (fun _ => none) (fun _ => none)
      (fun _ => none) none (by decide) (by decide)⟩

end TravelBot

namespace TravelBot

set_option maxRecDepth 100000 in
/-- **C3.** (code bug) The getaway prompt does NOT contain the catalog's
region names as the closed destination set: `generate_getaway` builds its
"select ONLY from this list" line from `list(affiliate_links.keys())`,
which are the TOP-LEVEL keys `getaways, tours`, not the region names.
For the default parameters the prompt contains the literal injected list
`"getaways, tours"` and does not even mention `"Africa"`, the first region
name of the catalog. -/
theorem C3_prompt_injects_dict_keys_not_regions :
    substr "getaways, tours" (getaway_prompt get_default_parameters) = true
    ∧ substr "Africa" (getaway_prompt get_default_parameters) = false
    ∧ region_names.head? = some "Africa"
    ∧ String.intercalate ", " affiliate_links_keys = "getaways, tours" := by
  exact ⟨by decide, by decide, by decide, by decide⟩

/-- **C4, counterexample.** `"Bali is amazing"` contains the catalog name
`Bali`, which the catalog lists under five different hotels; the resolver
returns FIVE entries for that name, not exactly one. -/
theorem C4_counterexample :
    (select_destination_with_affiliate_links "Bali is amazing" affiliate_links_getaways).countP
        (fun dl => dl.1 == "Bali") = 5
    ∧ ¬ (select_destination_with_affiliate_links "Bali is amazing" affiliate_links_getaways).countP
        (fun dl => dl.1 == "Bali") = 1 := by
  exact ⟨by decide, by decide⟩

/-- **C4, amended.** On text containing no catalog destination name the
resolver returns the empty list (never an error — it is total); on text
containing a name listed under two or more hotels it returns ONE ENTRY PER
MATCHING CATALOG ENTRY bearing that name (duplicates are kept, in catalog
order), not a single first-seen entry. -/
theorem C4_resolver_miss_empty_duplicates_kept
    (text : String) (getaways : List (String × List AffEntry)) :
    ((extract_destinations_with_links getaways).all
        (fun dl => !substr dl.1 text) = true →
      select_destination_with_affiliate_links text getaways = [])
    ∧ ∀ name : String,
        (select_destination_with_affiliate_links text getaways).countP
            (fun dl => dl.1 == name)
          = (extract_destinations_with_links getaways).countP
              (fun dl => dl.1 == name && substr dl.1 text) := by
  constructor
  · intro hall
    unfold select_destination_with_affiliate_links
    have hfe : (extract_destinations_with_links getaways).filter
        (fun dl => substr dl.1 text) = [] := by
      rw [List.filter_eq_nil]
      intro a ha
      have := (List.all_eq_true.mp hall) a ha
      simpa using this
    by_cases he : (extract_destinations_with_links getaways).isEmpty = true
    · simp [he]
    · simp [he, hfe]
  · intro name
    unfold select_destination_with_affiliate_links
    by_cases he : (extract_destinations_with_links getaways).isEmpty = true
    · have : extract_destinations_with_links getaways = [] := by
        simpa [List.isEmpty_iff] using he
      simp [he, this]
    · simp only [he, Bool.false_eq_true, if_false]
      by_cases hm2 : ((extract_destinations_with_links getaways).filter
          (fun dl => substr dl.1 text)).isEmpty = true
      · have hz : (extract_destinations_with_links getaways).filter
            (fun dl => substr dl.1 text) = [] := by
          simpa [List.isEmpty_iff] using hm2
        have hc : (extract_destinations_with_links getaways).countP
            (fun dl => dl.1 == name && substr dl.1 text) = 0 := by
          rw [List.countP_eq_zero]
          intro a ha hband
          simp only [Bool.and_eq_true] at hband
          have hmem : a ∈ (extract_destinations_with_links getaways).filter
              (fun dl => substr dl.1 text) :=
            List.mem_filter.mpr ⟨ha, hband.2⟩
          rw [hz] at hmem
          simp at hmem
        simp [hm2, hc]
      · simp only [hm2, Bool.false_eq_true, if_false]
        rw [List.countP_filter]

/-- **C4, witness.** A lowercase text matches no (capitalized) catalog name
and resolves to the empty list; and for `"Bali is amazing"` the per-name
count equals the number of matching catalog entries (five for `Bali`). -/
theorem C4_resolver_miss_empty_duplicates_kept_witness :
    select_destination_with_affiliate_links "no matches here" affiliate_links_getaways = []
    ∧ (select_destination_with_affiliate_links "Bali is amazing" affiliate_links_getaways).countP
          (fun dl => dl.1 == "Bali")
      = (extract_destinations_with_links affiliate_links_getaways).countP
          (fun dl => dl.1 == "Bali" && substr dl.1 "Bali is amazing") :=
  ⟨(C4_resolver_miss_empty_duplicates_kept "no matches here" affiliate_links_getaways).1
      (by decide),
   (C4_resolver_miss_empty_duplicates_kept "Bali is amazing" affiliate_links_getaways).2 "Bali"⟩

/-- **C5, counterexample.** In `"Visit Mbombela before Félicité"` the name
`Mbombela` appears first (index 6) and `Félicité` later (index 22), yet the
resolver returns `Félicité` before `Mbombela` — catalog order, not
first-appearance-in-text order. -/
theorem C5_counterexample :
    select_destination_with_affiliate_links "Visit Mbombela before Félicité"
        affiliate_links_getaways
      = [("Félicité", "https://luxuryescapes.sjv.io/dOOZ3j"),
         ("Mbombela", "https://luxuryescapes.sjv.io/mOObrM")]
    ∧ firstOcc "Mbombela" "Visit Mbombela before Félicité" = some 6
    ∧ firstOcc "Félicité" "Visit Mbombela before Félicité" = some 22 := by
  exact ⟨by decide, by decide, by decide⟩

/-- **C5, amended.** The resolved-link list is ordered by CATALOG iteration
order, not by first appearance in the text: it is always a subsequence of
the flattened catalog list. -/
theorem C5_resolver_catalog_order
    (text : String) (getaways : List (String × List AffEntry)) :
    List.Sublist (select_destination_with_affiliate_links text getaways)
      (extract_destinations_with_links getaways) := by
  unfold select_destination_with_affiliate_links
  by_cases he : (extract_destinations_with_links getaways).isEmpty = true
  · simp [he]
  · simp only [he, Bool.false_eq_true, if_false]
    by_cases hm2 : ((extract_destinations_with_links getaways).filter
        (fun dl => substr dl.1 text)).isEmpty = true
    · simp [hm2]
    · simp only [hm2, Bool.false_eq_true, if_false]
      exact List.filter_sublist _

end TravelBot

namespace TravelBot

/-- The banner creative indices of a block list, in order of insertion. -/
def bannerSlots : List Block → List Nat
  | [] => []
  | .bannerSlot i :: rest => i :: bannerSlots rest
  | _ :: rest => bannerSlots rest

/-- The link-line destination names of a block list, in order. -/
def linkNames : List Block → List String
  | [] => []
  | .linkLine s :: rest => s :: linkNames rest
  | _ :: rest => linkNames rest

theorem bannerSlots_append (a b : List Block) :
    bannerSlots (a ++ b) = bannerSlots a ++ bannerSlots b := by
  induction a with
  | nil => rfl
  | cons x xs ih => cases x <;> simp [bannerSlots, ih]

theorem linkNames_append (a b : List Block) :
    linkNames (a ++ b) = linkNames a ++ linkNames b := by
  induction a with
  | nil => rfl
  | cons x xs ih => cases x <;> simp [linkNames, ih]

/-- Paragraph classification of one section emits no banner slot and no
link line. -/
theorem lineBlocks_no_slots_no_links (s : String) :
    bannerSlots (lineBlocksGetaway s) = [] ∧ linkNames (lineBlocksGetaway s) = [] := by
  unfold lineBlocksGetaway
  induction pySplitNl s with
  | nil => exact ⟨rfl, rfl⟩
  | cons a as ih =>
    rw [List.filterMap_cons]
    by_cases h1 : (pyStrip a == "") = true
    · simpa [h1] using ih
    · by_cases h2 : strStartsWith "Option" (pyStrip a) = true
      · simp only [h1, Bool.false_eq_true, if_false, h2, if_true]
        exact ⟨by simpa [bannerSlots] using ih.1, by simpa [linkNames] using ih.2⟩
      · simp only [h1, Bool.false_eq_true, if_false, h2]
        exact ⟨by simpa [bannerSlots] using ih.1, by simpa [linkNames] using ih.2⟩

/-- The candidate-to-link filter of the booking footer emits only link
lines, never banner slots. -/
theorem bannerSlots_linkFilter (vs : List PyVal) :
    bannerSlots (vs.filterMap linkBlockOf) = [] := by
  induction vs with
  | nil => rfl
  | cons v vs ih =>
    rw [List.filterMap_cons]
    cases v with
    | str s =>
      simp only [linkBlockOf]
      by_cases h : affiliate_links_keys.contains s = true
      · rw [if_pos h]
        simpa [bannerSlots] using ih
      · rw [if_neg h]
        exact ih
    | null => exact ih
    | num n => exact ih
    | boolean b => exact ih
    | list l => exact ih

/-- The booking footer contributes no banner slot. -/
theorem bannerSlots_booking (content : String) (p : Params) :
    bannerSlots (bookingBlocksGetaway content p) = [] := by
  unfold bookingBlocksGetaway
  exact bannerSlots_linkFilter _

/-- Invariant of the getaway content loop: starting from banner index
`idx ≤ 3`, the emitted banner slots are consecutive indices from `idx`
reduced mod 3, and they never run past 3. -/
theorem getawaySlots_spec (ss : List String) (idx : Nat) (hidx : idx ≤ 3) :
    ∃ k, idx + k ≤ 3 ∧
      bannerSlots (getawaySectionsBlocks ss idx)
        = (List.range' idx k).map (· % 3) := by
  induction ss generalizing idx with
  | nil => exact ⟨0, by omega, rfl⟩
  | cons s rest ih =>
    unfold getawaySectionsBlocks
    by_cases h1 : (pyStrip s == "") = true
    · simp only [h1, if_true]
      exact ih idx hidx
    · simp only [h1, Bool.false_eq_true, if_false]
      by_cases h2 : (substr "Option" s && decide (idx < 3)) = true
      · simp only [h2, if_true]
        have hlt : idx < 3 := by
          have h3 := h2
          simp only [Bool.and_eq_true, decide_eq_true_eq] at h3
          exact h3.2
        obtain ⟨k, hk, hs⟩ := ih (idx + 1) (by omega)
        refine ⟨k + 1, by omega, ?_⟩
        rw [bannerSlots_append, bannerSlots_append, (lineBlocks_no_slots_no_links s).1]
        have hr : List.range' idx (k + 1) = idx :: List.range' (idx + 1) k := rfl
        rw [hr]
        simp [bannerSlots, hs]
      · simp only [h2, Bool.false_eq_true, if_false]
        obtain ⟨k, hk, hs⟩ := ih idx hidx
        refine ⟨k, hk, ?_⟩
        rw [bannerSlots_append, (lineBlocks_no_slots_no_links s).1, hs]
        simp

/-- **C6.** The assembled getaway document contains at most 3 banner
insertions regardless of how many `Option N:` blocks the content has, and
the `i`-th inserted banner is creative `BANNER_ADS[i % 3]` (indices cycle
by position through the 3-element banner list). -/
theorem C6_banner_cap_and_cycle (content : String) (p : Params) :
    (bannerSlots (create_pdf_story_getaway content p)).length ≤ 3
    ∧ bannerSlots (create_pdf_story_getaway content p)
      = (List.range (bannerSlots (create_pdf_story_getaway content p)).length).map
          (· % 3) := by
  have hstory : bannerSlots (create_pdf_story_getaway content p)
      = bannerSlots (getawaySectionsBlocks (reSplitOption content) 0) := by
    unfold create_pdf_story_getaway
    rw [bannerSlots_append, bannerSlots_append, bannerSlots_booking]
    simp [bannerSlots]
  obtain ⟨k, hk, hs⟩ := getawaySlots_spec (reSplitOption content) 0 (by omega)
  rw [hstory, hs]
  have hlen : ((List.range' 0 k).map (· % 3)).length = k := by
    simp
  rw [hlen]
  constructor
  · omega
  · rw [List.range_eq_range']

end TravelBot

namespace TravelBot

/-- The itinerary scenario text of the spec. -/
def c7text : String := "Day 1: Arrive in Paris\n- Check into hotel\nAccommodation: $500"

/-- **C7, counterexample.** On the scenario text, the itinerary content loop
of this revision's `create_pdf` classifies the line `Accommodation: $500`
as plain body text — there is no cost-line classification — so the block
kinds are `[dayHeader, bodyText, bodyText]`, not
`[dayHeader, bodyText, costLine]` as claimed. -/
theorem C7_counterexample :
    (itineraryContentBlocks c7text).map Block.kind
        = [BlockKind.dayHeader, BlockKind.bodyText, BlockKind.bodyText]
    ∧ (itineraryContentBlocks c7text).map Block.kind
        ≠ [BlockKind.dayHeader, BlockKind.bodyText, BlockKind.costLine] := by
  exact ⟨by decide, by decide⟩

/-- **C7, amended.** Assembling the scenario text with intent itinerary
yields exactly the blocks `[DayHeader, BodyText, BodyText]` in that order:
only lines starting with `Day ` (or `**Day `) are classified specially in
this revision; lines bearing cost-category labels such as
`Accommodation:` are rendered as plain body text. -/
theorem C7_itinerary_blocks :
    itineraryContentBlocks c7text
      = [Block.dayHeader "Day 1: Arrive in Paris",
         Block.bodyText "- Check into hotel",
         Block.bodyText "Accommodation: $500"] := by
  decide

/-- A candidate list containing no catalog key yields no link line. -/
theorem linkNames_linkFilter_none (vs : List PyVal)
    (h : vs.all (fun v =>
      match v with
      | .str s => !affiliate_links_keys.contains s
      | _ => true) = true) :
    linkNames (vs.filterMap linkBlockOf) = [] := by
  induction vs with
  | nil => rfl
  | cons v vs ih =>
    rw [List.all_cons, Bool.and_eq_true] at h
    rw [List.filterMap_cons]
    cases v with
    | str s =>
      have hs : ¬ affiliate_links_keys.contains s = true := by
        have h1 := h.1
        simp only [Bool.not_eq_true'] at h1
        intro hc
        rw [h1] at hc
        exact Bool.false_ne_true hc
      simp only [linkBlockOf]
      rw [if_neg hs]
      exact ih h.2
    | null => exact ih h.2
    | num n => exact ih h.2
    | boolean b => exact ih h.2
    | list l => exact ih h.2

/-- The getaway content loop emits no link line. -/
theorem linkNames_sections (ss : List String) (idx : Nat) :
    linkNames (getawaySectionsBlocks ss idx) = [] := by
  induction ss generalizing idx with
  | nil => rfl
  | cons s rest ih =>
    unfold getawaySectionsBlocks
    by_cases h1 : (pyStrip s == "") = true
    · simp only [h1, if_true]
      exact ih idx
    · simp only [h1, Bool.false_eq_true, if_false]
      by_cases h2 : (substr "Option" s && decide (idx < 3)) = true
      · simp only [h2, if_true]
        rw [linkNames_append, linkNames_append,
          (lineBlocks_no_slots_no_links s).2, ih (idx + 1)]
        simp [linkNames]
      · simp only [h2, Bool.false_eq_true, if_false]
        rw [linkNames_append, (lineBlocks_no_slots_no_links s).2, ih idx]
        simp

/-- **C8, amended.** When resolution finds zero catalog keys in the content
and no raw destination parameter is itself a catalog top-level key,
assembly still succeeds (it is total) and emits NO link lines — but the
`Booking Links:` footer heading is still present: it is appended
unconditionally, and the code does fall back to the parameters'
destinations as link candidates (they merely fail the key test here). -/
theorem C8_miss_renders_without_links (content : String) (p : Params)
    (hfound : destinations_found content = [])
    (hfb : (fallback_candidates p).all
      (fun v =>
        match v with
        | .str s => !affiliate_links_keys.contains s
        | _ => true) = true) :
    linkNames (create_pdf_story_getaway content p) = []
    ∧ Block.bookingHeading ∈ create_pdf_story_getaway content p := by
  have hbk : bookingBlocksGetaway content p
      = Block.bookingHeading :: (fallback_candidates p).filterMap linkBlockOf := by
    unfold bookingBlocksGetaway
    rw [hfound]
    simp
  constructor
  · unfold create_pdf_story_getaway
    rw [linkNames_append, linkNames_append, linkNames_sections, hbk]
    have : linkNames (Block.bookingHeading ::
        (fallback_candidates p).filterMap linkBlockOf)
        = linkNames ((fallback_candidates p).filterMap linkBlockOf) := rfl
    rw [this, linkNames_linkFilter_none _ hfb]
    rfl
  · unfold create_pdf_story_getaway
    rw [hbk]
    exact List.mem_append.mpr (Or.inr (List.mem_cons_self _ _))

/-- **C8, witness.** For a content string naming no catalog key and the
default parameters (destination `["Paris"]`, not a catalog key), the
assembled story has no link line yet still carries the footer heading. -/
theorem C8_miss_renders_without_links_witness :
    destinations_found "A quiet note" = []
    ∧ (fallback_candidates get_default_parameters).all
        (fun v =>
          match v with
          | .str s => !affiliate_links_keys.contains s
          | _ => true) = true
    ∧ linkNames (create_pdf_story_getaway "A quiet note" get_default_parameters) = []
    ∧ Block.bookingHeading ∈ create_pdf_story_getaway "A quiet note" get_default_parameters :=
  ⟨by decide, by decide,
   (C8_miss_renders_without_links "A quiet note" get_default_parameters
      (by decide) (by decide)).1,
   (C8_miss_renders_without_links "A quiet note" get_default_parameters
      (by decide) (by decide)).2⟩

/-- **C8, counterexample.** Even with zero catalog matches in the content,
the assembled document DOES contain the booking-links footer section: the
`Booking Links:` heading is appended unconditionally, contradicting the
claim's "no booking-links footer section". -/
theorem C8_counterexample :
    destinations_found "A note naming no catalog place" = []
    ∧ Block.bookingHeading ∈
        create_pdf_story_getaway "A note naming no catalog place" get_default_parameters := by
  exact ⟨by decide, by decide⟩

end TravelBot
